import Mathlib

/-
Shallow embedding of `src/tasks.py`: three demonstration snippets over a
web framework's signal-dispatch and transaction machinery, plus a custom
iterable `Rectangle` class.

The snippets' own logic (receiver bodies, the bank-transfer block, the
`Rectangle` class) is translated directly from the source.  The framework
facilities the snippets call into (`Signal`, `receiver`, `post_save`,
`transaction.atomic`) are not part of this repository; they are modelled
from the spec, and each such definition is marked `Modelled from the spec`.
-/

/-- Console and dispatch events observable during a run: a line printed to
the console, or the start of a receiver invocation (named by the receiver). -/
inductive Event where
  | print (line : String)
  | invoke (receiver : String)
deriving DecidableEq

/-- A connected receiver: its function name, and the console lines its body
prints when it runs in the thread with identifier `tid`. -/
structure Receiver where
  name : String
  run : Nat → List String

/-- Modelled from the spec: the external signal-dispatch facility.  A signal
holds the list of listener functions registered against it. -/
structure Signal where
  receivers : List Receiver

/-- Modelled from the spec: the `receiver` decorator registers a listener
function against the signal (appending it to the registration order). -/
def Signal.connect (s : Signal) (r : Receiver) : Signal :=
  ⟨s.receivers ++ [r]⟩

/-- Modelled from the spec: synchronous fan-out on `send`.  Each connected
receiver is invoked once, in registration order, in the caller's thread
`tid`, and runs to completion before the next receiver starts; `send`
returns only after all receivers have finished. -/
def Signal.send (s : Signal) (tid : Nat) : List Event :=
  s.receivers.foldr
    (fun r rest => Event.invoke r.name :: (r.run tid).map Event.print ++ rest) []

/-- The console transcript of a trace: the printed lines, in order. -/
def printedLines (tr : List Event) : List String :=
  tr.filterMap fun e =>
    match e with
    | .print s => some s
    | .invoke _ => none

/-- `slow_receiver` (snippet 1): prints a start line, sleeps, prints a
finish line.  The sleep produces no console output. -/
def slow_receiver : Receiver :=
  ⟨"slow_receiver", fun _ => ["Slow receiver started", "Slow receiver finished"]⟩

/-- `fast_receiver` (snippet 1). -/
def fast_receiver : Receiver :=
  ⟨"fast_receiver", fun _ => ["Fast receiver started and finished"]⟩

/-- `my_signal` of snippet 1 with its two receivers connected, in source
order. -/
def my_signal : Signal :=
  ((Signal.mk []).connect slow_receiver).connect fast_receiver

/-- The module-level statements of snippet 1, run in thread `tid`:
print, send, print. -/
def snippet1Trace (tid : Nat) : List Event :=
  Event.print "Sending signal..." :: my_signal.send tid
    ++ [Event.print "Signal send completed"]

/-- The expected-output comment of snippet 1 (source lines 30 to 34). -/
def documentedSnippet1 : List String :=
  ["Sending signal...",
   "Slow receiver started",
   "Slow receiver finished",
   "Fast receiver started and finished",
   "Signal send completed"]

/-- `receiver_1` (snippet 2): prints the identifier of the thread it runs
in, sleeps, prints a finish line. -/
def receiver_1 : Receiver :=
  ⟨"receiver_1", fun tid =>
    ["Receiver 1 - Thread ID: " ++ toString tid, "Receiver 1 finished"]⟩

/-- `receiver_2` (snippet 2). -/
def receiver_2 : Receiver :=
  ⟨"receiver_2", fun tid =>
    ["Receiver 2 - Thread ID: " ++ toString tid, "Receiver 2 finished"]⟩

/-- The rebinding `my_signal = Signal()` of snippet 2 (source line 61):
a fresh signal, with snippet 2's two receivers connected in source order. -/
def my_signal2 : Signal :=
  ((Signal.mk []).connect receiver_1).connect receiver_2

/-- `main` of snippet 2, run in the thread with identifier `tid`:
print the caller's thread identifier, print, send, print. -/
def snippet2Trace (tid : Nat) : List Event :=
  Event.print ("Caller - Thread ID: " ++ toString tid)
    :: Event.print "Sending signal..."
    :: my_signal2.send tid
    ++ [Event.print "Signal send completed"]

/-- The expected-output comment of snippet 2 (source lines 85 to 91),
with its placeholder thread identifier 1234567890 (the annotation
`# Same thread throughout` attached to the first line is not output). -/
def documentedSnippet2 : List String :=
  ["Caller - Thread ID: 1234567890",
   "Sending signal...",
   "Receiver 1 - Thread ID: 1234567890",
   "Receiver 1 finished",
   "Receiver 2 - Thread ID: 1234567890",
   "Receiver 2 finished",
   "Signal send completed"]

/-- The expected-output comment of snippet 2 with its placeholder thread
identifier replaced by the identifier `tid` of the thread actually running
the snippet. -/
def documentedSnippet2At (tid : Nat) : List String :=
  ["Caller - Thread ID: " ++ toString tid,
   "Sending signal...",
   "Receiver 1 - Thread ID: " ++ toString tid,
   "Receiver 1 finished",
   "Receiver 2 - Thread ID: " ++ toString tid,
   "Receiver 2 finished",
   "Signal send completed"]

/-- A `BankAccount` row (snippet 3): a name and an integer balance. -/
structure BankAccount where
  name : String
  balance : Int
deriving DecidableEq

/-- The stored state for snippet 3: the two rows the snippet queries by
name, "Alice" and "Bob", each identified by its balance. -/
structure DB where
  aliceBalance : Int
  bobBalance : Int
deriving DecidableEq

/-- Modelled from the spec: the storage query `BankAccount.objects.get`
for the two names the snippet uses. -/
def DB.fetch (db : DB) (n : String) : BankAccount :=
  if n = "Alice" then ⟨"Alice", db.aliceBalance⟩ else ⟨"Bob", db.bobBalance⟩

/-- Modelled from the spec: persisting a row updates the stored balance of
the account with that name. -/
def DB.put (db : DB) (acct : BankAccount) : DB :=
  if acct.name = "Alice" then { db with aliceBalance := acct.balance }
  else if acct.name = "Bob" then { db with bobBalance := acct.balance }
  else db

/-- `log_transaction` (source lines 126 to 128): the `post_save` receiver;
prints the saved instance's name and balance, touching no storage. -/
def log_transaction (inst : BankAccount) : List String :=
  ["💰 Log: " ++ inst.name ++ " now has $" ++ toString inst.balance]

/-- The receivers registered against the `post_save` signal for
`BankAccount`: exactly `log_transaction`. -/
def post_save_receivers : List (BankAccount → List String) :=
  [log_transaction]

/-- Modelled from the spec: `save` persists the row and then synchronously
fires the `post_save` receivers, collecting their console output. -/
def save (db : DB) (acct : BankAccount) : DB × List String :=
  (db.put acct, post_save_receivers.foldr (fun r rest => r acct ++ rest) [])

/-- The exceptions this program can raise. -/
inductive Exc where
  | valueError (msg : String)
deriving DecidableEq

/-- The body of the atomic block (source lines 132 to 142): fetch Alice and
Bob, deduct 50 from Alice and save, add 50 to Bob and save, then
unconditionally raise `ValueError("Oops! Error!")`.  Returns the mutated
storage state, the console lines produced, and the exception raised. -/
def transferBody (db : DB) : DB × List String × Option Exc :=
  let alice := db.fetch "Alice"
  let bob := db.fetch "Bob"
  let alice2 := { alice with balance := alice.balance - 50 }
  let s1 := save db alice2
  let bob2 := { bob with balance := bob.balance + 50 }
  let s2 := save s1.1 bob2
  (s2.1, s1.2 ++ s2.2, some (Exc.valueError "Oops! Error!"))

/-- Modelled from the spec: the scoped transaction construct
`transaction.atomic`.  The body's storage mutations commit on success and
are all discarded when an exception escapes the scope; the exception
propagates, and console output already produced is kept either way. -/
def atomic (db : DB) (body : DB → DB × List String × Option Exc) :
    DB × List String × Option Exc :=
  match body db with
  | (db2, out, none) => (db2, out, none)
  | (_, out, some e) => (db, out, some e)

/-- The whole of snippet 3 (source lines 131 to 150): run the atomic block;
on `ValueError` print the rollback message; then re-fetch both accounts and
print their balances.  Returns the final storage state and the transcript. -/
def task3Run (db0 : DB) : DB × List String :=
  match atomic db0 transferBody with
  | (db1, out, some (Exc.valueError _)) =>
    let alice := db1.fetch "Alice"
    let bob := db1.fetch "Bob"
    (db1, out ++ [" Transaction failed. Rolling back!"]
      ++ ["Alice: $" ++ toString alice.balance ++ ", Bob: $" ++ toString bob.balance])
  | (db1, out, none) =>
    let alice := db1.fetch "Alice"
    let bob := db1.fetch "Bob"
    (db1, out
      ++ ["Alice: $" ++ toString alice.balance ++ ", Bob: $" ++ toString bob.balance])

/-- The `Rectangle` class (source lines 185 to 192). -/
structure Rectangle where
  length : Int
  width : Int
deriving DecidableEq

/-- The suspension points of the generator `Rectangle.__iter__`: before the
first yield, between the two yields, and after the second yield. -/
inductive RectIterState where
  | start
  | afterLength
  | done
deriving DecidableEq

/-- One resumption of the generator `Rectangle.__iter__` (source lines 190
to 192): from `start` it yields the one-key dictionary for `length`, from
`afterLength` the one-key dictionary for `width`, and from `done` it stops.
A dictionary is modelled as its list of key-value pairs. -/
def Rectangle.next (r : Rectangle) :
    RectIterState → Option (List (String × Int) × RectIterState) :=
  fun s =>
    match s with
    | .start => some ([("length", r.length)], .afterLength)
    | .afterLength => some ([("width", r.width)], .done)
    | .done => none

/-- Driving the iterator: resume the generator until it stops (a `for`
loop), collecting the yielded dictionaries; `fuel` bounds the number of
resumptions. -/
def runIter (r : Rectangle) : RectIterState → Nat → List (List (String × Int))
  | _, 0 => []
  | s, fuel + 1 =>
    match r.next s with
    | none => []
    | some (v, s2) => v :: runIter r s2 fuel

/-- `rect = Rectangle(10, 20)` (source line 195). -/
def rect : Rectangle := ⟨10, 20⟩

/-- The demo loop (source lines 198 to 199): iterate over `rect` and print
each yielded dictionary; the printed values are the yielded dictionaries in
order. -/
def rectDemoPrinted : List (List (String × Int)) :=
  runIter rect RectIterState.start 3

/-- How many invocations of the receiver named `n` a trace records. -/
def invokeCount (n : String) (tr : List Event) : Nat :=
  tr.countP fun e =>
    match e with
    | .invoke m => m == n
    | .print _ => false

/-- Helper: the whole run of snippet 3, computed in closed form for an
arbitrary initial pair of balances. -/
theorem task3Run_eq (a b : Int) :
    task3Run ⟨a, b⟩ =
      (⟨a, b⟩,
       ["💰 Log: Alice now has $" ++ toString (a - 50),
        "💰 Log: Bob now has $" ++ toString (b + 50),
        " Transaction failed. Rolling back!",
        "Alice: $" ++ toString a ++ ", Bob: $" ++ toString b]) := rfl

/-- Helper: the printed transcript of snippet 2 run in thread `tid` is the
documented transcript with the actual thread identifier substituted. -/
theorem snippet2_printed_eq (tid : Nat) :
    printedLines (snippet2Trace tid) = documentedSnippet2At tid := rfl

/-- Helper: a receiver among a signal's registered receivers is invoked on
every send of the signal. -/
theorem mem_send_of_mem (rs : List Receiver) (r : Receiver) (tid : Nat)
    (h : r ∈ rs) :
    Event.invoke r.name ∈ (Signal.mk rs).send tid := by
  induction rs with
  | nil => cases h
  | cons hd tl ih =>
    rcases List.mem_cons.mp h with h1 | h2
    · subst h1
      exact List.mem_cons_self _ _
    · exact List.mem_cons_of_mem _ (List.mem_append_right _ (ih h2))

/-- C1: If an exception is raised inside the atomic block then every storage
mutation performed in its scope, those made through the post_save receivers
included, is discarded: for every initial pair of balances `a`, `b`, the
balances of Alice and Bob read back from storage after the forced rollback
equal their pre-transaction values. -/
theorem rollback_restores_balances (a b : Int) :
    (((task3Run ⟨a, b⟩).1).fetch "Alice").balance = a ∧
    (((task3Run ⟨a, b⟩).1).fetch "Bob").balance = b :=
  ⟨rfl, rfl⟩

/-- C2: Signal dispatch is synchronous and in-order: the full event trace of
snippet 1 shows each receiver invoked and run to completion before the next
starts, and the closing print happens only after both receivers finished;
the printed transcript is exactly the five documented lines in order. -/
theorem snippet1_transcript_exact (tid : Nat) :
    snippet1Trace tid =
      [Event.print "Sending signal...",
       Event.invoke "slow_receiver",
       Event.print "Slow receiver started",
       Event.print "Slow receiver finished",
       Event.invoke "fast_receiver",
       Event.print "Fast receiver started and finished",
       Event.print "Signal send completed"] ∧
    printedLines (snippet1Trace tid) = documentedSnippet1 :=
  ⟨rfl, rfl⟩

/-- C3: Console output is not undone by a rollback: the `atomic` wrapper
returns the body's printed lines unchanged whether or not it rolls back,
and in the bank-transfer run the two post_save log lines and the rollback
message all appear in the transcript even though the final storage state
equals the initial one. -/
theorem rollback_preserves_prints :
    (∀ (db : DB) (body : DB → DB × List String × Option Exc),
      (atomic db body).2.1 = (body db).2.1) ∧
    (∀ a b : Int,
      ("💰 Log: Alice now has $" ++ toString (a - 50)) ∈ (task3Run ⟨a, b⟩).2 ∧
      ("💰 Log: Bob now has $" ++ toString (b + 50)) ∈ (task3Run ⟨a, b⟩).2 ∧
      " Transaction failed. Rolling back!" ∈ (task3Run ⟨a, b⟩).2 ∧
      (task3Run ⟨a, b⟩).1 = ⟨a, b⟩) := by
  constructor
  · intro db body
    rcases hb : body db with ⟨db2, out, exc⟩
    cases exc <;> simp [atomic, hb]
  · intro a b
    refine ⟨?_, ?_, ?_, ?_⟩ <;> rw [task3Run_eq] <;> simp

/-- C4: Iterating over the rectangle constructed as `Rectangle(10, 20)`
yields, and the demo loop prints, exactly two one-key dictionaries in
order: first the one binding length to 10, then the one binding width
to 20. -/
theorem rect_demo_two_dicts :
    rectDemoPrinted = [[("length", 10)], [("width", 20)]] := rfl

/-- C5: A send fans out to every registered listener: one send on
`my_signal` invokes each of its two connected receivers exactly once, and
any receiver registered against any signal is invoked on every subsequent
send of that signal. -/
theorem send_fans_out :
    (∀ tid : Nat,
      invokeCount "slow_receiver" (my_signal.send tid) = 1 ∧
      invokeCount "fast_receiver" (my_signal.send tid) = 1) ∧
    (∀ (s : Signal) (r : Receiver) (tid : Nat),
      Event.invoke r.name ∈ (s.connect r).send tid) := by
  constructor
  · intro tid
    exact ⟨rfl, rfl⟩
  · intro s r tid
    exact mem_send_of_mem (s.receivers ++ [r]) r tid (by simp)

/-- C6: Receivers execute in the caller's thread: in a run of snippet 2 in
the thread with identifier `tid`, the thread identifiers printed by
receiver 1 and receiver 2 both equal the identifier printed by the caller
in `main`, namely `tid`. -/
theorem receivers_same_thread (tid : Nat) :
    ("Caller - Thread ID: " ++ toString tid) ∈ printedLines (snippet2Trace tid) ∧
    ("Receiver 1 - Thread ID: " ++ toString tid) ∈ printedLines (snippet2Trace tid) ∧
    ("Receiver 2 - Thread ID: " ++ toString tid) ∈ printedLines (snippet2Trace tid) := by
  refine ⟨?_, ?_, ?_⟩ <;> rw [snippet2_printed_eq] <;> simp [documentedSnippet2At]

/-- C7 counterexample: a run of snippet 2 in a thread whose identifier is
42 prints a transcript different from the documented one, whose
thread-identifier lines hard-code the placeholder 1234567890; so the
transcript does not reproduce the documented one character for character. -/
theorem snippet2_differs_from_documented :
    printedLines (snippet2Trace 42) ≠ documentedSnippet2 := by
  decide

/-- C7 amended: for every thread identifier `tid`, a run reproduces the
documented transcripts up to the thread-identifier placeholder: snippet 1's
transcript equals its documented transcript exactly, snippet 2's equals the
documented transcript with the placeholder 1234567890 replaced by `tid`,
and at `tid = 1234567890` the two coincide. -/
theorem transcripts_reproducible (tid : Nat) :
    printedLines (snippet1Trace tid) = documentedSnippet1 ∧
    printedLines (snippet2Trace tid) = documentedSnippet2At tid ∧
    documentedSnippet2At 1234567890 = documentedSnippet2 :=
  ⟨rfl, rfl, by decide⟩

/-- C8: For every pair of integers `l` and `w`, iterating `Rectangle(l, w)`
to exhaustion (any resumption bound of at least 2) yields exactly the
two-element sequence of one-key dictionaries binding length to `l` and then
width to `w`, the constructor arguments unmodified. -/
theorem rect_iter_general (l w : Int) (fuel : Nat) (h : 2 ≤ fuel) :
    runIter ⟨l, w⟩ RectIterState.start fuel =
      [[("length", l)], [("width", w)]] := by
  obtain ⟨f, rfl⟩ : ∃ f, fuel = f + 2 := ⟨fuel - 2, by omega⟩
  cases f <;> rfl

/-- Witness for C8 at `l = 3`, `w = 7`, `fuel = 5`. -/
theorem rect_iter_general_witness :
    2 ≤ 5 ∧ runIter ⟨3, 7⟩ RectIterState.start 5 =
      [[("length", 3)], [("width", 7)]] :=
  ⟨by decide, rect_iter_general 3 7 5 (by decide)⟩

/-- C9: The in-memory transfer step conserves total money: for every
initial balances `a` and `b`, after the two mutations and saves and before
any rollback, Alice's stored balance is exactly 50 lower, Bob's exactly 50
higher, and the sum of the two balances is unchanged. -/
theorem transfer_conserves_total (a b : Int) :
    ((transferBody ⟨a, b⟩).1).aliceBalance = a - 50 ∧
    ((transferBody ⟨a, b⟩).1).bobBalance = b + 50 ∧
    ((transferBody ⟨a, b⟩).1).aliceBalance + ((transferBody ⟨a, b⟩).1).bobBalance
      = a + b := by
  refine ⟨rfl, rfl, ?_⟩
  show a - 50 + (b + 50) = a + b
  ring

/-- C10: The atomic block unconditionally raises `ValueError` as its last
statement: for every initial pair of balances the transaction ends in that
exception (so the commit path is unreachable), the except branch prints the
rollback message, and the program ends with the transfer not committed. -/
theorem transfer_never_commits (a b : Int) :
    (atomic ⟨a, b⟩ transferBody).2.2 = some (Exc.valueError "Oops! Error!") ∧
    (task3Run ⟨a, b⟩).1 = ⟨a, b⟩ ∧
    " Transaction failed. Rolling back!" ∈ (task3Run ⟨a, b⟩).2 := by
  refine ⟨rfl, rfl, ?_⟩
  rw [task3Run_eq]
  simp
